import Mathlib

/-!
Verification of the message-limiter chat view-windowing plugin
(src/index.js) against its specification.

The plugin caps how many message elements are rendered in the chat view
while never touching the backing log (the host's `chat` array).  We embed
the plugin state and its handlers as pure Lean functions over an explicit
state record and prove the specification's properties about them.
-/

namespace MessageLimiter

/-- A rendered message element in the chat view (a `.mes` DOM node): its
`mesid` attribute — the index it was rendered with via the `forceId`
render option — and the message it displays.  `none` models a JavaScript
`undefined` message argument (as produced by an out-of-range `chat[i]`
lookup). -/
structure VisEl (M : Type) where
  mesid : Nat
  msg : Option M
deriving DecidableEq

/-- The state read and written by the plugin's handlers:

* `chat` — the host's backing log (`chat` array), read-only for the plugin;
* `visible` — the rendered Visible Window, in view order (`#chat .mes`);
* `isEnabled`, `messageLimit` — the persisted Window Configuration
  (`extensionSettings().isEnabled` / `.messageLimit`); the limit is an
  integer since the settings input is run through `Number(...)`;
* `limiterActive` — whether the `data-limiter-active` marker is set on the
  `#chat` container;
* `editing` — whether some `.edit_textarea` exists in the view (an
  in-place edit is in progress). -/
structure LimiterState (M : Type) where
  chat : List M
  visible : List (VisEl M)
  isEnabled : Bool
  messageLimit : Int
  limiterActive : Bool
  editing : Bool
deriving DecidableEq

/-- Modelled from the spec: the host render primitive
`addOneMessage(message, { forceId, insertBefore })` materializes the new
element immediately before the existing element whose `mesid` equals the
`insertBefore` argument (spec 4.3: "inserted immediately before the
current oldest visible element in view order").  If no element carries
that id the element is appended at the end; the plugin only ever passes
the id of the first visible element, so that branch is never taken. -/
def insertBeforeMesid {M : Type} (newEl : VisEl M) (target : Nat) :
    List (VisEl M) → List (VisEl M)
  | [] => [newEl]
  | e :: rest =>
    if e.mesid = target then newEl :: e :: rest
    else e :: insertBeforeMesid newEl target rest

/-- Modelled from the spec: the host primitive `reloadCurrentChat()`
forces a full, untruncated re-render (spec 4.1: "restores all messages"),
rendering every backing-log message tagged with its own index.  The
reload fires CHAT_CHANGED, whose plugin listener removes the
`data-limiter-active` marker; the listener's follow-up
`applyMessageLimit()` call is a no-op because the plugin only reloads
while disabled, so the net effect on the plugin state is: full view,
marker cleared. -/
def reloadCurrentChat {M : Type} (s : LimiterState M) : LimiterState M :=
  { s with
    visible := s.chat.enum.map (fun p => ⟨p.1, some p.2⟩)
    limiterActive := false }

/-- Embedding of `applyMessageLimit` (src/index.js lines 132-168), the
Full Resync:

* if disabled: reload the chat when the `data-limiter-active` marker is
  set, otherwise do nothing;
* if enabled: set the marker, then bail out if an edit is in progress or
  the limit is ≤ 0; otherwise clear the chat view (`clearChat()`), take
  `chat.slice(-limit)` and render each message of that tail slice with
  `forceId: chat.indexOf(message)`.

`chat.slice(-limit)` with `limit ≥ 1` is the suffix starting at
`max(length - limit, 0)`, i.e. `List.drop (length - limit)` with
truncated subtraction.  `chat.indexOf` compares by object identity in
JavaScript; the embedding uses decidable equality on `M`. -/
def applyMessageLimit {M : Type} [DecidableEq M] (s : LimiterState M) :
    LimiterState M :=
  if !s.isEnabled then
    if s.limiterActive then reloadCurrentChat s else s
  else
    let s1 := { s with limiterActive := true }
    if s1.editing then s1
    else if s1.messageLimit ≤ 0 then s1
    else
      let cleared := { s1 with visible := ([] : List (VisEl M)) }
      let messagesToDisplay :=
        cleared.chat.drop (cleared.chat.length - s1.messageLimit.toNat)
      { cleared with
        visible :=
          messagesToDisplay.map (fun m => ⟨cleared.chat.indexOf m, some m⟩) }

/-- Embedding of `handleNewMessage` (src/index.js lines 173-184), the
Incremental Append Handler: when enabled and the count of visible
elements exceeds the limit, remove the first (oldest in view order)
element; otherwise do nothing.  The handler body runs in a zero-delay
`setTimeout`; in the sequential model it reads the same state. -/
def handleNewMessage {M : Type} (s : LimiterState M) : LimiterState M :=
  if !s.isEnabled then s
  else
    if (s.visible.length : Int) > s.messageLimit then
      { s with visible := s.visible.tail }
    else s

/-- Embedding of `handleDeletedMessage` (src/index.js lines 189-210), the
Incremental Delete Handler: when enabled, the visible count is below the
limit and the backing log is longer than the visible count, read the
`mesid` of the first visible element, and if `mesid - 1 ≥ 0` render
`chat[mesid - 1]` with `forceId: mesid - 1`, inserted before the element
with id `mesid`.  When the view is empty, `attr('mesid')` is `undefined`,
`parseInt` yields `NaN`, and the `NaN - 1 ≥ 0` guard fails: the `none`
branch.  An out-of-range `chat[mesid - 1]` lookup is `undefined`,
modelled by the `Option`-valued indexing `chat[i]?`. -/
def handleDeletedMessage {M : Type} (s : LimiterState M) : LimiterState M :=
  if !s.isEnabled then s
  else
    let limit := s.messageLimit
    let currentCount := s.visible.length
    if (currentCount : Int) < limit ∧ (currentCount : Int) < (s.chat.length : Int) then
      match s.visible.head? with
      | none => s
      | some oldest =>
        let messageToAddIndex : Int := (oldest.mesid : Int) - 1
        if 0 ≤ messageToAddIndex then
          { s with
            visible :=
              insertBeforeMesid
                ⟨messageToAddIndex.toNat, s.chat[messageToAddIndex.toNat]?⟩
                oldest.mesid s.visible }
        else s
    else s

/-- Embedding of `onToggleClick` (src/index.js lines 117-127): flip the
enabled flag, then run the Full Resync when now enabled, or reload the
chat when now disabled. -/
def onToggleClick {M : Type} [DecidableEq M] (s : LimiterState M) :
    LimiterState M :=
  let s1 := { s with isEnabled := !s.isEnabled }
  if s1.isEnabled then applyMessageLimit s1 else reloadCurrentChat s1

/-- Embedding of `onSettingsChange` (src/index.js lines 105-112): store
the new enabled flag and limit read from the settings panel, then run the
Full Resync. -/
def onSettingsChange {M : Type} [DecidableEq M] (s : LimiterState M)
    (newEnabled : Bool) (newLimit : Int) : LimiterState M :=
  applyMessageLimit { s with isEnabled := newEnabled, messageLimit := newLimit }

/-- Embedding of the CHAT_CHANGED listener (src/index.js lines 226-230):
remove the `data-limiter-active` marker, then run the Full Resync. -/
def chatChangedHandler {M : Type} [DecidableEq M] (s : LimiterState M) :
    LimiterState M :=
  applyMessageLimit { s with limiterActive := false }

/-- The view is truncated when it renders strictly fewer elements than
the backing log holds. -/
def truncated {M : Type} (s : LimiterState M) : Prop :=
  s.visible.length < s.chat.length

instance {M : Type} (s : LimiterState M) : Decidable (truncated s) :=
  inferInstanceAs (Decidable (_ < _))

/-- C1: with the plugin enabled, no element in edit state and a positive
configured limit K, Full Resync (`applyMessageLimit`) leaves a Visible
Window of length exactly min(L, K), where L is the backing-log length. -/
theorem C1_window_size {M : Type} [DecidableEq M] (s : LimiterState M)
    (henabled : s.isEnabled = true) (hedit : s.editing = false)
    (hpos : 0 < s.messageLimit) :
    (applyMessageLimit s).visible.length =
      min s.chat.length s.messageLimit.toNat := by
  have hK : 0 < s.messageLimit.toNat := by omega
  simp only [applyMessageLimit, henabled, hedit, Bool.not_true,
    Bool.false_eq_true, if_false, if_neg (by omega : ¬s.messageLimit ≤ 0)]
  simp only [List.length_map, List.length_drop]
  omega

/-- Witness for C1 at a concrete state: backing log of length 3, limit 2. -/
theorem C1_window_size_witness :
    (applyMessageLimit
      { chat := [10, 20, 30], visible := [], isEnabled := true,
        messageLimit := 2, limiterActive := false,
        editing := false : LimiterState Nat }).visible.length = min 3 2 :=
  C1_window_size _ rfl rfl (by decide)

/-- In a duplicate-free list (JavaScript arrays of distinct object
references), `indexOf` reports the true position of every element of the
suffix `l.drop n`: the reported indices are exactly n, n+1, …,
length−1. -/
lemma map_indexOf_drop {M : Type} [DecidableEq M] (l : List M)
    (hl : l.Nodup) (n : Nat) :
    (l.drop n).map (fun m => l.indexOf m) = List.range' n (l.length - n) := by
  apply List.ext_getElem
  · simp
  · intro i h1 h2
    simp only [List.getElem_map, List.getElem_drop, List.getElem_range',
      one_mul]
    exact List.indexOf_getElem hl (n + i) (by simp at h1; omega)

/-- C2: with the plugin enabled, no edit in progress, a positive limit K
and a duplicate-free backing log (JavaScript object identity), Full
Resync tags every rendered element with its true backing-log index, and
the origin indices of the Visible Window are exactly
L−min(L,K), …, L−1 in increasing order. -/
theorem C2_suffix_indices {M : Type} [DecidableEq M] (s : LimiterState M)
    (henabled : s.isEnabled = true) (hedit : s.editing = false)
    (hpos : 0 < s.messageLimit) (hnodup : s.chat.Nodup) :
    (applyMessageLimit s).visible.map VisEl.mesid =
      List.range' (s.chat.length - min s.chat.length s.messageLimit.toNat)
        (min s.chat.length s.messageLimit.toNat) ∧
    ∀ e ∈ (applyMessageLimit s).visible, e.msg = s.chat[e.mesid]? := by
  simp only [applyMessageLimit, henabled, hedit, Bool.not_true,
    Bool.false_eq_true, if_false, if_neg (by omega : ¬s.messageLimit ≤ 0)]
  constructor
  · rw [List.map_map]
    have h1 : (VisEl.mesid ∘ fun m => (⟨s.chat.indexOf m, some m⟩ : VisEl M)) =
        fun m => s.chat.indexOf m := rfl
    rw [h1, map_indexOf_drop s.chat hnodup]
    have h2 : s.chat.length - min s.chat.length s.messageLimit.toNat =
        s.chat.length - s.messageLimit.toNat := by omega
    have h3 : min s.chat.length s.messageLimit.toNat =
        s.chat.length - (s.chat.length - s.messageLimit.toNat) := by omega
    rw [h2, h3]
  · intro e he
    simp only [List.mem_map] at he
    obtain ⟨m, hm, rfl⟩ := he
    have hmem : m ∈ s.chat := List.mem_of_mem_drop hm
    have := List.indexOf_get? hmem
    simpa [List.get?_eq_getElem?] using this.symm

/-- Witness for C2: backing log [10, 20, 30] (duplicate-free), limit 2;
the window carries origin indices [1, 2] and each element shows the
backing-log entry at its own index. -/
theorem C2_suffix_indices_witness :
    (applyMessageLimit
      { chat := [10, 20, 30], visible := [], isEnabled := true,
        messageLimit := 2, limiterActive := false,
        editing := false : LimiterState Nat }).visible.map VisEl.mesid =
      List.range' 1 2 ∧
    ∀ e ∈ (applyMessageLimit
      { chat := [10, 20, 30], visible := [], isEnabled := true,
        messageLimit := 2, limiterActive := false,
        editing := false : LimiterState Nat }).visible,
      e.msg = [10, 20, 30][e.mesid]? :=
  C2_suffix_indices _ rfl rfl (by decide) (by decide)

/-- C3: with the plugin enabled, a nonempty Visible Window strictly under
the limit and a backing log longer than the window, the Delete Handler
adds exactly one element, tagged with the previous oldest element's
origin index minus 1 and carrying the backing-log entry at that index,
inserted before the previous oldest element; when that index would be
negative (oldest origin index 0) it adds nothing. -/
theorem C3_delete_backfill {M : Type} [DecidableEq M] (s : LimiterState M)
    (oldest : VisEl M) (rest : List (VisEl M))
    (henabled : s.isEnabled = true) (hvis : s.visible = oldest :: rest)
    (hunder : (s.visible.length : Int) < s.messageLimit)
    (hmore : s.visible.length < s.chat.length) :
    (0 < oldest.mesid →
      (handleDeletedMessage s).visible =
        ⟨oldest.mesid - 1, s.chat[oldest.mesid - 1]?⟩ :: oldest :: rest ∧
      (handleDeletedMessage s).visible.length = s.visible.length + 1) ∧
    (oldest.mesid = 0 → handleDeletedMessage s = s) := by
  simp only [handleDeletedMessage, henabled, Bool.not_true,
    Bool.false_eq_true, if_false,
    if_pos (⟨hunder, by exact_mod_cast hmore⟩ :
      (s.visible.length : Int) < s.messageLimit ∧
        (s.visible.length : Int) < (s.chat.length : Int))]
  rw [hvis]
  simp only [List.head?_cons]
  constructor
  · intro hmes
    rw [if_pos (by omega : (0 : Int) ≤ (oldest.mesid : Int) - 1)]
    have htn : ((oldest.mesid : Int) - 1).toNat = oldest.mesid - 1 := by
      omega
    rw [htn]
    simp only [insertBeforeMesid, if_pos rfl]
    exact ⟨rfl, rfl⟩
  · intro hmes
    rw [if_neg (by omega : ¬(0 : Int) ≤ (oldest.mesid : Int) - 1)]

/-- Witness for C3: window [mesid 2] under limit 5 with backing log of
length 3; the handler backfills the entry at index 1 in front. -/
theorem C3_delete_backfill_witness :
    (handleDeletedMessage
      { chat := [10, 20, 30], visible := [⟨2, some 30⟩],
        isEnabled := true, messageLimit := 5, limiterActive := true,
        editing := false : LimiterState Nat }).visible =
      [⟨1, some 20⟩, ⟨2, some 30⟩] :=
  ((C3_delete_backfill _ ⟨2, some 30⟩ [] rfl rfl (by decide)
    (by decide)).1 (by decide)).1

/-- C4: the Append Handler, when enabled and the visible count exceeds
the limit, removes exactly the first element in view order (the window
becomes its own tail and nothing else changes); when the count is at most
the limit, or the plugin is disabled, it changes nothing; and under a
non-negative limit the over-capacity case removes exactly one element. -/
theorem C4_append_trim {M : Type} (s : LimiterState M) :
    (s.isEnabled = true → (s.visible.length : Int) > s.messageLimit →
      handleNewMessage s = { s with visible := s.visible.tail }) ∧
    (s.isEnabled = true → (s.visible.length : Int) ≤ s.messageLimit →
      handleNewMessage s = s) ∧
    (s.isEnabled = false → handleNewMessage s = s) ∧
    (s.isEnabled = true → (s.visible.length : Int) > s.messageLimit →
      0 ≤ s.messageLimit →
      (handleNewMessage s).visible.length + 1 = s.visible.length) := by
  refine ⟨fun he hgt => ?_, fun he hle => ?_, fun he => ?_,
    fun he hgt hnn => ?_⟩
  · simp [handleNewMessage, he, hgt]
  · simp [handleNewMessage, he, not_lt.mpr hle]
  · simp [handleNewMessage, he]
  · simp only [handleNewMessage, he, Bool.not_true, Bool.false_eq_true,
      if_false, if_pos hgt, List.length_tail]
    omega

/-- Witness for C4: two visible elements with limit 1; the handler drops
the first element only. -/
theorem C4_append_trim_witness :
    handleNewMessage
      { chat := [5, 6], visible := [⟨0, some 5⟩, ⟨1, some 6⟩],
        isEnabled := true, messageLimit := 1, limiterActive := true,
        editing := false : LimiterState Nat } =
      { chat := [5, 6], visible := [⟨1, some 6⟩], isEnabled := true,
        messageLimit := 1, limiterActive := true, editing := false } :=
  (C4_append_trim _).1 rfl (by decide)

/-- Counterexample to C5 as stated: with the plugin disabled, the
`data-limiter-active` marker set and an edit in progress, Full Resync
does not consult the Edit Guard — the disabled branch runs
`reloadCurrentChat()` first, which replaces the truncated window
([mesid 2]) with the full view ([0, 1, 2]). -/
theorem C5_edit_guard_counterexample :
    ({ chat := [7, 8, 9], visible := [⟨2, some 9⟩], isEnabled := false,
       messageLimit := 1, limiterActive := true,
       editing := true : LimiterState Nat }).editing = true ∧
    (applyMessageLimit
      { chat := [7, 8, 9], visible := [⟨2, some 9⟩], isEnabled := false,
        messageLimit := 1, limiterActive := true,
        editing := true : LimiterState Nat }).visible ≠
      ({ chat := [7, 8, 9], visible := [⟨2, some 9⟩], isEnabled := false,
         messageLimit := 1, limiterActive := true,
         editing := true : LimiterState Nat }).visible := by
  decide

/-- C5 (amended): with the plugin ENABLED and some element in edit state,
Full Resync is a no-op on the Visible Window — its only effect is setting
the `data-limiter-active` marker (the code logs a diagnostic and
returns); element count, origin indices and the backing log are identical
before and after. -/
theorem C5_edit_guard_enabled {M : Type} [DecidableEq M]
    (s : LimiterState M) (henabled : s.isEnabled = true)
    (hedit : s.editing = true) :
    applyMessageLimit s = { s with limiterActive := true } := by
  simp [applyMessageLimit, henabled, hedit]

/-- Witness for the amended C5: an enabled, editing state; the resync
only sets the marker. -/
theorem C5_edit_guard_enabled_witness :
    applyMessageLimit
      { chat := [7, 8, 9], visible := [⟨2, some 9⟩], isEnabled := true,
        messageLimit := 1, limiterActive := false,
        editing := true : LimiterState Nat } =
      { chat := [7, 8, 9], visible := [⟨2, some 9⟩], isEnabled := true,
        messageLimit := 1, limiterActive := true, editing := true } :=
  C5_edit_guard_enabled _ rfl rfl

/-- Counterexample to C6 as stated: enabled Full Resync sets the
`data-limiter-active` marker unconditionally, even when the whole backing
log fits in the window.  With backing log [1, 2] and limit 5 the resync
renders all 2 messages — the view is NOT truncated — yet the Active flag
is left true. -/
theorem C6_active_flag_counterexample :
    (applyMessageLimit
      { chat := [1, 2], visible := [], isEnabled := true,
        messageLimit := 5, limiterActive := false,
        editing := false : LimiterState Nat }).limiterActive = true ∧
    ¬ truncated (applyMessageLimit
      { chat := [1, 2], visible := [], isEnabled := true,
        messageLimit := 5, limiterActive := false,
        editing := false : LimiterState Nat }) := by
  constructor
  · rfl
  · decide

/-- C6 (amended): the Active flag tracks the enabled flag, not
truncation.  After every resync-path operation (`applyMessageLimit`, the
CHAT_CHANGED listener, the toggle click, a settings change) the marker
equals the enabled flag, and the incremental handlers touch neither
field. -/
theorem C6_active_flag_amended {M : Type} [DecidableEq M]
    (s : LimiterState M) (b : Bool) (k : Int) :
    (applyMessageLimit s).limiterActive = (applyMessageLimit s).isEnabled ∧
    (chatChangedHandler s).limiterActive = (chatChangedHandler s).isEnabled ∧
    (onToggleClick s).limiterActive = (onToggleClick s).isEnabled ∧
    (onSettingsChange s b k).limiterActive =
      (onSettingsChange s b k).isEnabled ∧
    (handleNewMessage s).limiterActive = s.limiterActive ∧
    (handleNewMessage s).isEnabled = s.isEnabled ∧
    (handleDeletedMessage s).limiterActive = s.limiterActive ∧
    (handleDeletedMessage s).isEnabled = s.isEnabled := by
  have happly : ∀ t : LimiterState M,
      (applyMessageLimit t).limiterActive = (applyMessageLimit t).isEnabled := by
    intro t
    obtain ⟨chat, visible, en, lim, act, ed⟩ := t
    cases en <;> cases act <;> cases ed <;>
      simp [applyMessageLimit, reloadCurrentChat] <;> split_ifs <;> rfl
  have hdel : (handleDeletedMessage s).limiterActive = s.limiterActive ∧
      (handleDeletedMessage s).isEnabled = s.isEnabled := by
    unfold handleDeletedMessage
    dsimp only
    split_ifs <;> try exact ⟨rfl, rfl⟩
    cases s.visible.head? <;> dsimp only <;> try exact ⟨rfl, rfl⟩
    split_ifs <;> exact ⟨rfl, rfl⟩
  have hnew : (handleNewMessage s).limiterActive = s.limiterActive ∧
      (handleNewMessage s).isEnabled = s.isEnabled := by
    unfold handleNewMessage
    split_ifs <;> exact ⟨rfl, rfl⟩
  refine ⟨happly s, happly _, ?_, happly _, hnew.1, hnew.2, hdel.1, hdel.2⟩
  obtain ⟨chat, visible, en, lim, act, ed⟩ := s
  cases en
  · simpa [onToggleClick] using happly
      { chat := chat, visible := visible, isEnabled := true,
        messageLimit := lim, limiterActive := act, editing := ed }
  · simp [onToggleClick, reloadCurrentChat]

/-- C7: with the plugin enabled and a non-positive limit, Full Resync
performs no window rebuild: it returns right after setting the marker, so
the Visible Window and the backing log are untouched (and, being a total
function, it raises nothing). -/
theorem C7_nonpositive_limit {M : Type} [DecidableEq M]
    (s : LimiterState M) (henabled : s.isEnabled = true)
    (hnp : s.messageLimit ≤ 0) :
    applyMessageLimit s = { s with limiterActive := true } := by
  unfold applyMessageLimit
  simp only [henabled, Bool.not_true, Bool.false_eq_true, if_false]
  cases he : s.editing with
  | true => simp [he]
  | false => simp [he, hnp]

/-- Witness for C7: enabled with limit 0 and a stale window; nothing is
rebuilt, only the marker is set. -/
theorem C7_nonpositive_limit_witness :
    applyMessageLimit
      { chat := [4, 5, 6], visible := [⟨0, some 4⟩], isEnabled := true,
        messageLimit := 0, limiterActive := false,
        editing := false : LimiterState Nat } =
      { chat := [4, 5, 6], visible := [⟨0, some 4⟩], isEnabled := true,
        messageLimit := 0, limiterActive := true, editing := false } :=
  C7_nonpositive_limit _ rfl (by decide)

/-- Shape of the full re-render performed by `reloadCurrentChat`: all
backing-log messages, tagged 0, 1, …, L−1 in order, each showing the
backing-log entry at its own index. -/
lemma reload_full_view {M : Type} (s : LimiterState M) :
    (reloadCurrentChat s).visible.length = s.chat.length ∧
    (reloadCurrentChat s).visible.map VisEl.mesid =
      List.range s.chat.length ∧
    ∀ e ∈ (reloadCurrentChat s).visible, e.msg = s.chat[e.mesid]? := by
  refine ⟨by simp [reloadCurrentChat], ?_, ?_⟩
  · show (s.chat.enum.map
      (fun p => (⟨p.1, some p.2⟩ : VisEl M))).map VisEl.mesid = _
    rw [List.map_map]
    have h : (VisEl.mesid ∘ fun p : Nat × M => (⟨p.1, some p.2⟩ : VisEl M)) =
        Prod.fst := rfl
    rw [h, List.enum_map_fst]
  · intro e he
    simp only [reloadCurrentChat, List.mem_map] at he
    obtain ⟨p, hp, rfl⟩ := he
    have := List.mem_enum_iff_getElem?.mp hp
    simpa using this.symm

/-- C8: disabling the plugin after it was enabled and applied restores
the full view: both the toggle-button path (`onToggleClick` from an
enabled state) and a resync request while disabled with the
`data-limiter-active` marker set (`applyMessageLimit`) leave a view of
all L backing-log messages, tagged 0…L−1, each showing its own
backing-log entry. -/
theorem C8_disable_restores {M : Type} [DecidableEq M]
    (s t : LimiterState M) (hs : s.isEnabled = true)
    (ht : t.isEnabled = false) (hta : t.limiterActive = true) :
    ((onToggleClick s).visible.length = s.chat.length ∧
      (onToggleClick s).visible.map VisEl.mesid =
        List.range s.chat.length ∧
      ∀ e ∈ (onToggleClick s).visible, e.msg = s.chat[e.mesid]?) ∧
    ((applyMessageLimit t).visible.length = t.chat.length ∧
      (applyMessageLimit t).visible.map VisEl.mesid =
        List.range t.chat.length ∧
      ∀ e ∈ (applyMessageLimit t).visible, e.msg = t.chat[e.mesid]?) := by
  constructor
  · have h1 : onToggleClick s =
        reloadCurrentChat { s with isEnabled := !s.isEnabled } := by
      unfold onToggleClick
      dsimp only
      rw [hs]
      simp
    rw [h1]
    exact reload_full_view _
  · have h2 : applyMessageLimit t = reloadCurrentChat t := by
      unfold applyMessageLimit
      rw [ht, hta]
      simp
    rw [h2]
    exact reload_full_view _

/-- Witness for C8: toggling off an enabled state over a 3-message log,
and resyncing a disabled-but-marked state, both yield 3 visible
elements tagged [0, 1, 2]. -/
theorem C8_disable_restores_witness :
    (onToggleClick
      { chat := [10, 20, 30], visible := [⟨2, some 30⟩],
        isEnabled := true, messageLimit := 1, limiterActive := true,
        editing := false : LimiterState Nat }).visible.map VisEl.mesid =
      List.range 3 ∧
    (applyMessageLimit
      { chat := [10, 20, 30], visible := [⟨2, some 30⟩],
        isEnabled := false, messageLimit := 1, limiterActive := true,
        editing := false : LimiterState Nat }).visible.map VisEl.mesid =
      List.range 3 :=
  ⟨(C8_disable_restores
      { chat := [10, 20, 30], visible := [⟨2, some 30⟩],
        isEnabled := true, messageLimit := 1, limiterActive := true,
        editing := false }
      { chat := [10, 20, 30], visible := [⟨2, some 30⟩],
        isEnabled := false, messageLimit := 1, limiterActive := true,
        editing := false } rfl rfl rfl).1.2.1,
   (C8_disable_restores
      { chat := [10, 20, 30], visible := [⟨2, some 30⟩],
        isEnabled := true, messageLimit := 1, limiterActive := true,
        editing := false }
      { chat := [10, 20, 30], visible := [⟨2, some 30⟩],
        isEnabled := false, messageLimit := 1, limiterActive := true,
        editing := false } rfl rfl rfl).2.2.1⟩

/-- C9: no operation of the plugin ever writes to the backing log — Full
Resync, both incremental handlers, the toggle click, a settings change
and the CHAT_CHANGED listener all leave `chat` identical (the log is
only read via slice, index lookup, indexOf and length). -/
theorem C9_backing_log_immutable {M : Type} [DecidableEq M]
    (s : LimiterState M) (b : Bool) (k : Int) :
    (applyMessageLimit s).chat = s.chat ∧
    (handleNewMessage s).chat = s.chat ∧
    (handleDeletedMessage s).chat = s.chat ∧
    (onToggleClick s).chat = s.chat ∧
    (onSettingsChange s b k).chat = s.chat ∧
    (chatChangedHandler s).chat = s.chat := by
  have happly : ∀ u : LimiterState M, (applyMessageLimit u).chat = u.chat := by
    intro u
    unfold applyMessageLimit reloadCurrentChat
    dsimp only
    split_ifs <;> rfl
  have hnew : (handleNewMessage s).chat = s.chat := by
    unfold handleNewMessage
    split_ifs <;> rfl
  have hdel : (handleDeletedMessage s).chat = s.chat := by
    unfold handleDeletedMessage
    dsimp only
    split_ifs <;> try rfl
    cases s.visible.head? <;> dsimp only <;> try rfl
    split_ifs <;> rfl
  have htog : (onToggleClick s).chat = s.chat := by
    unfold onToggleClick
    dsimp only
    split_ifs
    · exact happly _
    · rfl
  exact ⟨happly s, hnew, hdel, htog, happly _, happly _⟩

/-- C10: with the plugin enabled, an empty Visible Window and a nonempty
backing log, the Delete Handler is a complete no-op: the `mesid` read on
the nonexistent first element is non-numeric (`parseInt` of `undefined`
is `NaN`), the `≥ 0` guard fails, and no backfill or backing-log
indexing happens. -/
theorem C10_empty_view_delete_noop {M : Type} (s : LimiterState M)
    (henabled : s.isEnabled = true) (hempty : s.visible = [])
    (hchat : s.chat ≠ []) :
    handleDeletedMessage s = s := by
  unfold handleDeletedMessage
  rw [henabled, hempty]
  simp

/-- Witness for C10: enabled, empty view, one-message log; the handler
returns the state unchanged. -/
theorem C10_empty_view_delete_noop_witness :
    handleDeletedMessage
      { chat := [42], visible := [], isEnabled := true,
        messageLimit := 5, limiterActive := true,
        editing := false : LimiterState Nat } =
      { chat := [42], visible := [], isEnabled := true,
        messageLimit := 5, limiterActive := true, editing := false } :=
  C10_empty_view_delete_noop _ rfl rfl (by decide)

end MessageLimiter
